import Mathlib

/-!
Shallow embedding of src/fts/database.py from the FileTimeSeries repository.

The module holds the write pipeline of the file watcher: a polling loop
(listen_and_write) that drains a queue of WriteRequest values, a batch writer
(write_to_db) that issues INSERT OR IGNORE statements, a schema creator
(add_table) that derives a CREATE TABLE statement from a pandas DataFrame, a
catalog lookup (table_exists) and a dtype mapper (pandas_dtype_to_sqlite_type).

Python exceptions are modelled with Except PyErr; the SQLite world is modelled
as a map from file paths to files holding named tables. Two facts about the
pandas library that the code relies on are part of the embedding and are
documented at the definitions dataFrameBool and index_names_is_none:
pandas NDFrame defines its truth value to raise ValueError unconditionally,
and Index.names is a FrozenList with one entry per index level, never None.
-/

namespace FTS

/-- A SQLite storage cell value. -/
inductive Value where
  | intV (i : Int)
  | textV (s : String)
  | nullV
  deriving DecidableEq

/-- Semantic buckets of pandas column dtypes, as distinguished by the
pandas.api.types predicates that database.py calls. -/
inductive Dtype where
  | int64
  | uint64
  | boolean
  | float64
  | str
  | datetime
  | object
  deriving DecidableEq

/-- pandas.api.types.is_integer_dtype: true exactly for integer dtypes;
pandas returns False for bool dtypes here. -/
def is_integer_dtype : Dtype → Bool
  | Dtype.int64 => true
  | Dtype.uint64 => true
  | _ => false

/-- pandas.api.types.is_bool_dtype. -/
def is_bool_dtype : Dtype → Bool
  | Dtype.boolean => true
  | _ => false

/-- pandas.api.types.is_float_dtype. -/
def is_float_dtype : Dtype → Bool
  | Dtype.float64 => true
  | _ => false

/-- database.py lines 187-200: map a pandas dtype to a SQLite type name. -/
def pandas_dtype_to_sqlite_type (dtype : Dtype) : String :=
  if is_integer_dtype dtype then "INTEGER"
  else if is_bool_dtype dtype then "INTEGER"
  else if is_float_dtype dtype then "REAL"
  else "TEXT"

/-- The Python exceptions the embedded code can raise. OperationalError and
ProgrammingError stand for the sqlite3 exceptions of those names. -/
inductive PyErr where
  | valueError (msg : String)
  | typeError (msg : String)
  | operationalError (msg : String)
  | programmingError (msg : String)
  deriving DecidableEq

/-- A pandas DataFrame as database.py consumes it: the names and dtypes of the
index levels, the names and dtypes of the data columns, and the rows, each row
split into its index values and its column values. -/
structure DataFrame where
  index_names : List (Option String)
  index_dtypes : List Dtype
  columns : List String
  column_dtypes : List Dtype
  rows : List (List Value × List Value)
  deriving DecidableEq

/-- The message of the ValueError that pandas NDFrame raises from its truth
method. -/
def truth_value_message : String :=
  "The truth value of a DataFrame is ambiguous. Use a.empty, a.bool, a.item, a.any or a.all."

/-- Evaluating the truth value of a DataFrame, as Python does for the
expression `not data`. pandas generic.py defines NDFrame truth to raise
ValueError unconditionally, for empty and non-empty frames alike, so this
never produces a Bool. -/
def dataFrameBool (_df : DataFrame) : Except PyErr Bool :=
  Except.error (PyErr.valueError truth_value_message)

/-- The Python str conversion used when an index level name (possibly None)
is interpolated into an f-string. -/
def pyStr : Option String → String
  | none => "None"
  | some s => s

/-- Python str.join over a list of index level names. Joining raises TypeError
as soon as an entry is None rather than a str. -/
def pyJoin (sep : String) (parts : List (Option String)) : Except PyErr String :=
  if parts.any Option.isNone then
    Except.error (PyErr.typeError "sequence item: expected str instance, NoneType found")
  else
    Except.ok (String.intercalate sep (parts.map (fun o => o.getD "")))

/-- pandas `data.index.name`: the name of the single index level (None when the
level is unnamed). Modelled as the first entry of the names list. -/
def DataFrame.index_name (df : DataFrame) : Option String :=
  df.index_names.headD none

/-- The test `data.index.name is None`. -/
def index_name_is_none (df : DataFrame) : Bool :=
  df.index_name.isNone

/-- The test `data.index.names is None`. pandas Index.names is a FrozenList
holding one entry per index level (the entry itself may be None); the attribute
is never the value None, so this test is false for every DataFrame. -/
def index_names_is_none (_df : DataFrame) : Bool :=
  false

/-- database.py line 120: the guard `data.index.name is None and
data.index.names is None` that is meant to reject a batch that declares no key
column. -/
def unkeyed_guard (df : DataFrame) : Bool :=
  index_name_is_none df && index_names_is_none df

/-- The truthiness test `if data.index.names:` - a FrozenList is truthy exactly
when it is non-empty. -/
def index_names_truthy (df : DataFrame) : Bool :=
  !df.index_names.isEmpty

/-- A table inside a SQLite file: its column names in creation order, the
number of leading columns that form the primary key, and its rows. -/
structure Table where
  columns : List String
  pk_len : Nat
  rows : List (List Value)
  deriving DecidableEq

/-- A SQLite database file: its catalog of named tables. -/
structure SqliteFile where
  tables : List (String × Table)
  deriving DecidableEq

/-- The filesystem as SQLite sees it: a map from paths to database files. -/
abbrev Store : Type := List (String × SqliteFile)

/-- sqlite3.connect(path): an existing file is opened, a missing one is
created empty. -/
def getFile (store : Store) (path : String) : SqliteFile :=
  match store.find? (fun p => p.1 == path) with
  | some p => p.2
  | none => { tables := [] }

/-- Writing a database file back to its path. -/
def setFile (store : Store) (path : String) (file : SqliteFile) : Store :=
  if (store.any (fun p => p.1 == path)) then
    store.map (fun p => if p.1 == path then (p.1, file) else p)
  else
    store ++ [(path, file)]

/-- database.py lines 168-184: catalog lookup in sqlite_master for a table of
the given name. -/
def table_exists (file : SqliteFile) (table_name : String) : Bool :=
  file.tables.any (fun p => p.1 == table_name)

/-- database.py lines 130-150: build the column definition list for CREATE
TABLE. The index levels are rendered first; when `data.index.names` is truthy
(non-empty) each level becomes a quoted column and a trailing composite
PRIMARY KEY clause joining the level names is appended after the data columns;
otherwise a single inline PRIMARY KEY column is rendered. The dtype of an
index level or column is looked up by name; the model pairs each name with its
dtype positionally, which agrees with the source for distinct names. -/
def column_definitions (data : DataFrame) : Except PyErr (List String) :=
  let keyDefs : List String :=
    if index_names_truthy data then
      (data.index_names.zip data.index_dtypes).map
        (fun p =>
          let n := pyStr p.1
          let t := pandas_dtype_to_sqlite_type p.2
          s!"\"{n}\" {t}")
    else
      [let n := pyStr data.index_name
       let t := pandas_dtype_to_sqlite_type (data.index_dtypes.headD Dtype.object)
       s!"{n} {t} PRIMARY KEY"]
  let colDefs : List String :=
    (data.columns.zip data.column_dtypes).map
      (fun p =>
        let n := p.1
        let t := pandas_dtype_to_sqlite_type p.2
        s!"\"{n}\" {t}")
  if index_names_truthy data then
    match pyJoin ", " data.index_names with
    | Except.error e => Except.error e
    | Except.ok joined => Except.ok (keyDefs ++ colDefs ++ [s!"PRIMARY KEY ({joined})"])
  else
    Except.ok (keyDefs ++ colDefs)

/-- Modelled from the spec for comparison in claim C10: the composite-key
rendering alone - every index level a quoted typed column, the data columns
after them, and one trailing PRIMARY KEY clause listing the index level names.
No inline single-column PRIMARY KEY is ever produced. -/
def composite_definitions (data : DataFrame) : Except PyErr (List String) :=
  let keyDefs : List String :=
    (data.index_names.zip data.index_dtypes).map
      (fun p =>
        let n := pyStr p.1
        let t := pandas_dtype_to_sqlite_type p.2
        s!"\"{n}\" {t}")
  let colDefs : List String :=
    (data.columns.zip data.column_dtypes).map
      (fun p =>
        let n := p.1
        let t := pandas_dtype_to_sqlite_type p.2
        s!"\"{n}\" {t}")
  match pyJoin ", " data.index_names with
  | Except.error e => Except.error e
  | Except.ok joined => Except.ok (keyDefs ++ colDefs ++ [s!"PRIMARY KEY ({joined})"])

/-- database.py lines 152-156: the CREATE TABLE IF NOT EXISTS statement text
(os.linesep modelled as a newline). -/
def table_creation_sql (table_name : String) (defs : List String) : String :=
  "CREATE TABLE IF NOT EXISTS " ++ table_name ++ " (\n    " ++
    String.intercalate ",\n    " defs ++ "\n)"

/-- database.py lines 102-165: add_table. Evaluating `if not data:` first asks
the DataFrame for its truth value, which pandas defines to raise ValueError;
were a Bool produced, a falsy batch would raise the no-data ValueError and the
unkeyed guard would be checked next. Then, under the module lock, the table is
created from the column definitions unless the catalog already has it. The
success path of the connection handling is modelled here; the local
`connection` is pre-bound to None and the close call sits in a bare except
that logs, so the finally block of the source never raises. -/
def add_table (store : Store) (path : String) (table_name : String)
    (data : DataFrame) : Except PyErr Store := do
  let truthy ← dataFrameBool data
  if truthy = false then
    throw (PyErr.valueError s!"Cannot add the {table_name} table - there is no data to base it off of")
  if unkeyed_guard data then
    throw (PyErr.valueError "The dataframe to base the table off of must have a named index/indices and it does not")
  let file := getFile store path
  if table_exists file table_name then
    return store
  let defs ← column_definitions data
  let _sql := table_creation_sql table_name defs
  let t : Table :=
    { columns := data.index_names.map pyStr ++ data.columns
      pk_len := data.index_names.length
      rows := [] }
  return setFile store path { tables := file.tables ++ [(table_name, t)] }

/-- database.py lines 74-79: the INSERT OR IGNORE statement text. -/
def insert_sql_for (table_name : String) (column_names : List String) : String :=
  "INSERT OR IGNORE INTO \"" ++ table_name ++ "\" (\n    " ++
    String.intercalate ", \n    " column_names ++ "\n) VALUES (\n    " ++
    String.intercalate ", \n    " (column_names.map (fun _ => "?")) ++ "\n)\n"

/-- One INSERT OR IGNORE of a row: when an existing row agrees on the primary
key columns the new row is silently skipped, otherwise it is appended. -/
def insert_or_ignore (t : Table) (row : List Value) : Table :=
  if t.rows.any (fun r => r.take t.pk_len == row.take t.pk_len) then t
  else { t with rows := t.rows ++ [row] }

/-- Replace a named table inside a file. -/
def updateTable (file : SqliteFile) (table_name : String) (t : Table) : SqliteFile :=
  { tables := file.tables.map (fun p => if p.1 == table_name then (p.1, t) else p) }

/-- database.py lines 60-99: write_to_db. Under the module lock it first calls
add_table, then flattens each row of data.reset_index(drop=False) into index
values followed by column values and runs executemany of INSERT OR IGNORE in
one committed transaction. The success path of the connection handling is
modelled here; the add_table call precedes the try/finally that opens the
connection, so an error raised by add_table propagates before any connection
is acquired. -/
def write_to_db (store : Store) (path : String) (table_name : String)
    (data : DataFrame) : Except PyErr Store := do
  let store2 ← add_table store path table_name data
  let column_names := data.index_names.map pyStr ++ data.columns
  let _sql := insert_sql_for table_name column_names
  let rows := data.rows.map (fun r => r.1 ++ r.2)
  if rows.any (fun r => r.length ≠ column_names.length) then
    throw (PyErr.programmingError "Incorrect number of bindings supplied")
  let file := getFile store2 path
  match file.tables.find? (fun p => p.1 == table_name) with
  | none => throw (PyErr.operationalError s!"no such table: {table_name}")
  | some pr =>
      let t2 := rows.foldl insert_or_ignore pr.2
      return setFile store2 path (updateTable file table_name t2)

/-- database.py lines 19-22: the WriteRequest dataclass. -/
structure WriteRequest where
  path : String
  table_name : String
  data : DataFrame
  deriving DecidableEq

/-- An object taken from the queue: either a genuine WriteRequest or some
other value, which the isinstance check in the loop rejects. -/
inductive QueueItem where
  | request (r : WriteRequest)
  | malformed (repr : String)
  deriving DecidableEq

/-- The outcome of one blocking dequeue attempt with timeout: either
queue.Empty after timeout_seconds, or an item. -/
inductive PollEvent where
  | empty
  | item (q : QueueItem)
  deriving DecidableEq

/-- database.py lines 39-58: the coordinator loop body. The loop is driven by
the trace of its dequeue attempts: at iteration i it first checks the stop
signal and returns the accumulated count at once when the signal is set;
otherwise it consumes the next poll event. queue.Empty and non-WriteRequest
items are skipped; for a WriteRequest the write either succeeds, adding
len(request.data) to the count, or raises, in which case the exception is
caught, logged and the loop continues. An exhausted trace also yields the
accumulated state, standing for the point at which the run is observed. -/
def listen_and_write_loop (stop : Nat → Bool) :
    List PollEvent → Nat → Nat → Store → Nat × Store
  | [], _i, acc, st => (acc, st)
  | p :: rest, i, acc, st =>
      if stop i then (acc, st)
      else
        match p with
        | PollEvent.empty => listen_and_write_loop stop rest (i + 1) acc st
        | PollEvent.item (QueueItem.malformed _) =>
            listen_and_write_loop stop rest (i + 1) acc st
        | PollEvent.item (QueueItem.request r) =>
            match write_to_db st r.path r.table_name r.data with
            | Except.ok st2 =>
                listen_and_write_loop stop rest (i + 1) (acc + r.data.rows.length) st2
            | Except.error _ => listen_and_write_loop stop rest (i + 1) acc st

/-- database.py lines 25-58: listen_and_write, started with write_count = 0. -/
def listen_and_write (stop : Nat → Bool) (polls : List PollEvent) (st : Store) :
    Nat × Store :=
  listen_and_write_loop stop polls 0 0 st

/-- Modelled from the spec for comparison in claim C2: the sum of the row
counts of the batches that were written without raising, together with the
store those writes produce. Timeouts, malformed items and batches whose write
raised contribute nothing. -/
def process_polls : List PollEvent → Store → Nat × Store
  | [], st => (0, st)
  | PollEvent.empty :: rest, st => process_polls rest st
  | PollEvent.item (QueueItem.malformed _) :: rest, st => process_polls rest st
  | PollEvent.item (QueueItem.request r) :: rest, st =>
      match write_to_db st r.path r.table_name r.data with
      | Except.ok st2 =>
          let p := process_polls rest st2
          (r.data.rows.length + p.1, p.2)
      | Except.error _ => process_polls rest st

/-- The batch of the concrete scenario of claim C1: one record with key column
path = /a and data column op = create. -/
def eventsDf : DataFrame :=
  { index_names := [some "path"]
    index_dtypes := [Dtype.object]
    columns := ["op"]
    column_dtypes := [Dtype.object]
    rows := [([Value.textV "/a"], [Value.textV "create"])] }

/-- The WriteRequest of the concrete scenario of claim C1. -/
def eventsRequest : WriteRequest :=
  { path := "t.db", table_name := "events", data := eventsDf }

/-- A batch with zero rows over the same schema as eventsDf. -/
def emptyDf : DataFrame :=
  { index_names := [some "path"]
    index_dtypes := [Dtype.object]
    columns := ["op"]
    column_dtypes := [Dtype.object]
    rows := [] }

/-- A batch whose index is the default unnamed one: names = FrozenList of a
single None, declaring no key column. -/
def unnamedDf : DataFrame :=
  { index_names := [none]
    index_dtypes := [Dtype.int64]
    columns := ["op"]
    column_dtypes := [Dtype.object]
    rows := [([Value.intV 0], [Value.textV "create"])] }

/-- A batch standing for the bad write of the fault isolation scenario: its
key value is missing (null). -/
def badDf : DataFrame :=
  { index_names := [some "path"]
    index_dtypes := [Dtype.object]
    columns := ["op"]
    column_dtypes := [Dtype.object]
    rows := [([Value.nullV], [Value.textV "create"])] }

/-- The WriteRequest carrying badDf. -/
def badRequest : WriteRequest :=
  { path := "t.db", table_name := "events", data := badDf }

/-- Observing the stop signal at the head of an iteration returns the
accumulated count and store at once, with no further dequeue attempt. -/
theorem listen_loop_at_stop (stop : Nat → Bool) (polls : List PollEvent)
    (i acc : Nat) (st : Store) (h : stop i = true) :
    listen_and_write_loop stop polls i acc st = (acc, st) := by
  cases polls with
  | nil => rfl
  | cons p rest => simp [listen_and_write_loop, h]

/-- While the stop signal stays unset, the loop accumulates exactly the sum of
the row counts of the batches written without raising. -/
theorem listen_loop_counts (stop : Nat → Bool) (polls : List PollEvent) :
    ∀ (i acc : Nat) (st : Store),
      (∀ j, j < polls.length → stop (i + j) = false) →
      listen_and_write_loop stop polls i acc st =
        (acc + (process_polls polls st).1, (process_polls polls st).2) := by
  induction polls with
  | nil =>
      intro i acc st _h
      simp [listen_and_write_loop, process_polls]
  | cons p rest ih =>
      intro i acc st h
      have h0 : stop i = false := by
        have hh := h 0 (by simp)
        simpa using hh
      have h1 : ∀ j, j < rest.length → stop (i + 1 + j) = false := by
        intro j hj
        have hh := h (j + 1) (by simpa using Nat.succ_lt_succ hj)
        have e : i + (j + 1) = i + 1 + j := by omega
        rw [e] at hh
        exact hh
      cases p with
      | empty =>
          simp only [listen_and_write_loop, h0, Bool.false_eq_true, if_false,
            process_polls]
          exact ih (i + 1) acc st h1
      | item q =>
          cases q with
          | malformed s =>
              simp only [listen_and_write_loop, h0, Bool.false_eq_true, if_false,
                process_polls]
              exact ih (i + 1) acc st h1
          | request r =>
              cases hw : write_to_db st r.path r.table_name r.data with
              | ok st2 =>
                  simp only [listen_and_write_loop, h0, Bool.false_eq_true,
                    if_false, process_polls, hw]
                  rw [ih (i + 1) (acc + r.data.rows.length) st2 h1]
                  rw [Nat.add_assoc]
              | error e =>
                  simp only [listen_and_write_loop, h0, Bool.false_eq_true,
                    if_false, process_polls, hw]
                  exact ih (i + 1) acc st h1

/-- Claim C2: for every run of the coordinator, setting the stop signal makes
run return at the next iteration head without a further dequeue attempt, and
the returned value equals the sum of the row counts of the batches that were
written without raising; dequeued items that are not WriteRequest instances,
and batches whose write raised, contribute nothing to the total. The bounded
dequeue wait of pollTimeout is modelled discretely: one stop check per dequeue
attempt, and no attempt follows an observed stop. -/
theorem c2_clean_shutdown (stop : Nat → Bool) (polls : List PollEvent) (st : Store)
    (hrun : ∀ j, j < polls.length → stop j = false) :
    listen_and_write stop polls st = process_polls polls st ∧
    (∀ i acc st2, stop i = true →
        listen_and_write_loop stop polls i acc st2 = (acc, st2)) ∧
    (∀ s rest i acc st2, stop i = false →
        listen_and_write_loop stop (PollEvent.item (QueueItem.malformed s) :: rest) i acc st2 =
          listen_and_write_loop stop rest (i + 1) acc st2) ∧
    (∀ r rest i acc st2 e, stop i = false →
        write_to_db st2 r.path r.table_name r.data = Except.error e →
        listen_and_write_loop stop (PollEvent.item (QueueItem.request r) :: rest) i acc st2 =
          listen_and_write_loop stop rest (i + 1) acc st2) := by
  refine ⟨?_, ?_, ?_, ?_⟩
  · have h0 : ∀ j, j < polls.length → stop (0 + j) = false := by
      intro j hj
      simpa using hrun j hj
    have hc := listen_loop_counts stop polls 0 0 st h0
    simpa [listen_and_write] using hc
  · intro i acc st2 h
    exact listen_loop_at_stop stop polls i acc st2 h
  · intro s rest i acc st2 h
    simp [listen_and_write_loop, h]
  · intro r rest i acc st2 e h hw
    simp [listen_and_write_loop, h, hw]

/-- Witness for claim C2: a concrete run whose trace is a single timed-out
dequeue with the stop signal never set during it. -/
theorem c2_clean_shutdown_witness :
    (∀ j, j < ([PollEvent.empty] : List PollEvent).length →
        (fun _ : Nat => false) j = false) ∧
    listen_and_write (fun _ => false) [PollEvent.empty] [] =
      process_polls [PollEvent.empty] [] :=
  ⟨fun _ _ => rfl,
   (c2_clean_shutdown (fun _ => false) [PollEvent.empty] [] (fun _ _ => rfl)).1⟩

/-- Claim C8: the type mapper is total and realizes the fixed bucket table -
integer and boolean dtypes map to INTEGER, floating point to REAL, and every
other dtype falls through to the TEXT default. -/
theorem c8_type_mapper_total (d : Dtype) :
    pandas_dtype_to_sqlite_type d =
      (match d with
       | Dtype.int64 => "INTEGER"
       | Dtype.uint64 => "INTEGER"
       | Dtype.boolean => "INTEGER"
       | Dtype.float64 => "REAL"
       | Dtype.str => "TEXT"
       | Dtype.datetime => "TEXT"
       | Dtype.object => "TEXT") := by
  cases d <;> rfl

/-- Claim C10: a pandas index always has a non-empty names list, so the column
definition builder always takes the composite-key branch - it agrees with the
composite-only rendering, and whenever it succeeds the final column definition
is the trailing PRIMARY KEY clause joining the index level names; the inline
single-column PRIMARY KEY branch is never exercised. -/
theorem c10_composite_key_branch (df : DataFrame) (h : df.index_names ≠ []) :
    column_definitions df = composite_definitions df ∧
    (∀ defs, column_definitions df = Except.ok defs →
        ∃ joined, pyJoin ", " df.index_names = Except.ok joined ∧
          defs.getLast? = some s!"PRIMARY KEY ({joined})") := by
  have ht : index_names_truthy df = true := by
    unfold index_names_truthy
    cases hx : df.index_names with
    | nil => exact absurd hx h
    | cons a l => simp
  constructor
  · simp only [column_definitions, composite_definitions, ht, if_true]
  · intro defs hdefs
    cases hj : pyJoin ", " df.index_names with
    | error e =>
        simp only [column_definitions, ht, if_true, hj] at hdefs
        exact Except.noConfusion hdefs
    | ok joined =>
        refine ⟨joined, rfl, ?_⟩
        simp only [column_definitions, ht, if_true, hj, Except.ok.injEq] at hdefs
        rw [← hdefs]
        exact List.getLast?_concat _

/-- Witness for claim C10 at the concrete events batch of the C1 scenario. -/
theorem c10_composite_key_branch_witness :
    eventsDf.index_names ≠ [] ∧
    column_definitions eventsDf = composite_definitions eventsDf :=
  ⟨by decide, (c10_composite_key_branch eventsDf (by decide)).1⟩

/-- Claim C1, evaluated: the concrete scenario - one WriteRequest for table
events with the single record (path /a, op create), the stop signal set after
the first iteration - returns 0, not 1, and creates no events table, because
add_table evaluates `if not data:` on the DataFrame and pandas raises
ValueError for every DataFrame, so the write fails and is only logged. -/
theorem c1_concrete_scenario_run :
    listen_and_write (fun j => decide (1 ≤ j))
        [PollEvent.item (QueueItem.request eventsRequest)] [] = (0, []) ∧
    table_exists (getFile [] "t.db") "events" = false :=
  ⟨rfl, rfl⟩

/-- Claim C3, evaluated: a batch whose write raises is followed by the
well-formed events batch; the loop indeed survives and propagates nothing, but
the subsequent well-formed batch is not written and not counted - the run
returns 0 and the store stays empty, because every call to write_to_db raises
at the `if not data:` truth test inside add_table. -/
theorem c3_fault_isolation_run :
    listen_and_write (fun j => decide (2 ≤ j))
        [PollEvent.item (QueueItem.request badRequest),
         PollEvent.item (QueueItem.request eventsRequest)] [] = (0, []) :=
  rfl

/-- Claim C4, evaluated: add_table raises the pandas truth-value ValueError
for the empty batch and for the non-empty batch alike - the intended
empty-schema check is never the error raised, and a non-empty sample does not
pass. -/
theorem c4_empty_batch_run :
    add_table [] "t.db" "events" emptyDf =
      Except.error (PyErr.valueError truth_value_message) ∧
    add_table [] "t.db" "events" eventsDf =
      Except.error (PyErr.valueError truth_value_message) :=
  ⟨rfl, rfl⟩

/-- Claim C5, evaluated: the unkeyed guard `data.index.name is None and
data.index.names is None` is false for every DataFrame, since pandas
Index.names is never None - so no unkeyed-schema error can ever be raised -
and a batch with an unnamed index instead hits the pandas truth-value
ValueError one line earlier. -/
theorem c5_unkeyed_guard_unreachable :
    (∀ df : DataFrame, unkeyed_guard df = false) ∧
    add_table [] "t.db" "events" unnamedDf =
      Except.error (PyErr.valueError truth_value_message) :=
  ⟨fun df => by simp [unkeyed_guard, index_names_is_none], rfl⟩

/-- Claim C6, evaluated: the first add_table call already raises, so calling
it twice yields zero tables rather than exactly one; the catalog never gains
the events table. -/
theorem c6_table_creation_run :
    add_table [] "t.db" "events" eventsDf =
      Except.error (PyErr.valueError truth_value_message) ∧
    table_exists (getFile [] "t.db") "events" = false :=
  ⟨rfl, rfl⟩

/-- Claim C7, evaluated: write_to_db raises before reaching its INSERT OR
IGNORE, so writing the same batch twice leaves zero copies of each row rather
than exactly one. -/
theorem c7_idempotent_insert_run :
    write_to_db [] "t.db" "events" eventsDf =
      Except.error (PyErr.valueError truth_value_message) :=
  rfl

/-- Claim C9: on every call to write_to_db and to add_table, any acquired
connection is released before the operation returns or propagates, and a
failure during release never masks or replaces the primary error or result.
This holds on every call: each call raises the pandas truth-value ValueError
at the `if not data:` test before sqlite3.connect is ever reached, so no
connection is acquired - release is trivially satisfied - and the theorem
exhibits that exact primary error propagating unreplaced for all inputs;
nothing later in either function runs, so nothing can mask it. -/
theorem c9_connection_release (store : Store) (path : String)
    (table_name : String) (data : DataFrame) :
    add_table store path table_name data =
      Except.error (PyErr.valueError truth_value_message) ∧
    write_to_db store path table_name data =
      Except.error (PyErr.valueError truth_value_message) :=
  ⟨rfl, rfl⟩

end FTS
